import Mathlib

/-!
Verification of the scenario engine of the Arauco EBIT simulator
(`src/app.py`).  The core function `construye_escenario_targets`
(app.py lines 92-117) is embedded over exact rational arithmetic:
numpy float arrays become `List ℚ`, the Python dict of target prices
becomes a partial map `String → Option ℚ` (a Python dict lookup raises
`KeyError` naming the missing key; we model that with an explicit error
value carrying the name), and the numpy elementwise operations become
`List.map` / `List.zipWith`.
-/

namespace Arauco

/-- One entry of `base_commodities` (app.py lines 70-86): spot price,
annual volume exposure, and R² hedge-effectiveness coefficient. -/
structure Commodity where
  P0 : ℚ
  VS : ℚ
  R2 : ℚ
deriving DecidableEq, Repr

/-- app.py line 45. -/
def EBIT_base : ℚ := 380266000

/-- app.py line 46. -/
def horiz_meses : ℕ := 12

/-- app.py line 52. -/
def P_urea_spot : ℚ := 494.98

/-- app.py line 53. -/
def P_met_spot : ℚ := 664.69

/-- app.py line 54. -/
def P_mad_spot : ℚ := 445.10

/-- app.py line 56. -/
def P_urea_BE : ℚ := 650.00

/-- app.py line 57. -/
def P_met_BE : ℚ := 800.00

/-- app.py line 58. -/
def P_mad_BE : ℚ := 495.54

/-- app.py line 61. -/
def VS_urea_anual : ℚ := 946856.35 * 12

/-- app.py line 62. -/
def VS_metanol_anual : ℚ := 774925.06 * 12

/-- app.py line 63. -/
def VS_madera_anual : ℚ := 858115026.19

/-- app.py line 66. -/
def R2_urea : ℚ := 0.7007

/-- app.py line 67. -/
def R2_metanol : ℚ := 0.5487

/-- app.py line 68. -/
def R2_madera : ℚ := 0.62

/-- The UREA entry of `base_commodities` (app.py lines 71-75). -/
def urea : Commodity := ⟨P_urea_spot, VS_urea_anual, R2_urea⟩

/-- The METANOL entry of `base_commodities` (app.py lines 76-80). -/
def metanol : Commodity := ⟨P_met_spot, VS_metanol_anual, R2_metanol⟩

/-- The MADERA entry of `base_commodities` (app.py lines 81-85). -/
def madera : Commodity := ⟨P_mad_spot, VS_madera_anual, R2_madera⟩

/-- app.py lines 70-86: the base parameter dict, in insertion order. -/
def base_commodities : List (String × Commodity) :=
  [("UREA", urea), ("METANOL", metanol), ("MADERA", madera)]

/-- `np.linspace a b (n+1)`: `n+1` evenly spaced samples from `a` to `b`
(app.py line 104 uses `np.linspace(P0, P_T, horiz_meses + 1)`). -/
def linspace (a b : ℚ) (n : ℕ) : List ℚ :=
  (List.range (n + 1)).map (fun i : ℕ => a + (b - a) * (i : ℚ) / (n : ℚ))

/-- Error raised by the engine.  In the Python source a missing key in
`target_prices` raises `KeyError(name)`, which carries the absent name. -/
inductive ScenarioError where
  | missingTarget (name : String)
deriving DecidableEq, Repr

/-- The tuple returned by `construye_escenario_targets` (app.py line 117):
the per-commodity price paths (the DataFrame's columns, in insertion
order) and the three EBIT-related series. -/
structure Escenario where
  precios  : List (String × List ℚ)
  ebit_sin : List ℚ
  ebit_con : List ℚ
  ahorro   : List ℚ
deriving DecidableEq, Repr

/-- One iteration of the `for name, base in base_commodities.items()` loop
(app.py lines 98-112): look up the target price (a missing key aborts the
whole call), build the linear price path, the relative-price ratio and the
delta cost, and accumulate into the three series. -/
def stepCommodity (target_prices : String → Option ℚ) (st : Escenario)
    (item : String × Commodity) : Except ScenarioError Escenario :=
  match target_prices item.1 with
  | none => .error (.missingTarget item.1)
  | some P_T =>
      let P0 := item.2.P0
      let VS := item.2.VS
      let R2 := item.2.R2
      let path := linspace P0 P_T horiz_meses
      let rel := path.map (fun p => p / P0)
      let delta_costo := rel.map (fun r => VS * (r - 1))
      .ok { precios  := st.precios ++ [(item.1, path)]
            ebit_sin := List.zipWith (fun e d => e - d) st.ebit_sin delta_costo
            ebit_con := List.zipWith (fun e d => e - (1 - R2) * d) st.ebit_con delta_costo
            ahorro   := List.zipWith (fun a d => a + R2 * d) st.ahorro delta_costo }

/-- Initial accumulator state (app.py lines 93-96): both EBIT series start
as constant `EBIT_base` arrays of length `horiz_meses + 1`, savings start
at zero, no price paths yet. -/
def initEscenario : Escenario :=
  { precios  := []
    ebit_sin := List.replicate (horiz_meses + 1) EBIT_base
    ebit_con := List.replicate (horiz_meses + 1) EBIT_base
    ahorro   := List.replicate (horiz_meses + 1) (0 : ℚ) }

/-- app.py lines 92-117: the scenario engine. -/
def construye_escenario_targets (target_prices : String → Option ℚ) :
    Except ScenarioError Escenario :=
  base_commodities.foldlM (stepCommodity target_prices) initEscenario

/-- Element access with default 0, standing for numpy array indexing. -/
def elt (xs : List ℚ) (i : ℕ) : ℚ :=
  xs.getD i 0

/-- Path lookup in the returned price table by commodity name. -/
def pathOf (st : Escenario) (name : String) : List ℚ :=
  (st.precios.lookup name).getD []

/-- Total accessor for the successful result of a call. -/
def resultado (target_prices : String → Option ℚ) : Escenario :=
  (construye_escenario_targets target_prices).toOption.getD initEscenario

/-- The default target dict of the app (app.py lines 157-161 with the
slider default values of lines 131-155, which are the BE prices of
lines 56-58). -/
def targetsBE : String → Option ℚ :=
  fun n =>
    if n = "UREA" then some P_urea_BE
    else if n = "METANOL" then some P_met_BE
    else if n = "MADERA" then some P_mad_BE
    else none

/-- Target dict of the spec's concrete scenario (§8): UREA moved to its
BE price 650.00, the other two commodities held at their spot prices. -/
def targets_urea_650 : String → Option ℚ :=
  fun n =>
    if n = "UREA" then some 650
    else if n = "METANOL" then some P_met_spot
    else if n = "MADERA" then some P_mad_spot
    else none

/-- Target dict missing the METANOL entry, for exercising the
missing-key error path. -/
def targets_sin_metanol : String → Option ℚ :=
  fun n =>
    if n = "UREA" then some P_urea_BE
    else if n = "MADERA" then some P_mad_BE
    else none

/-- Target dict holding every commodity at its spot price. -/
def targets_spot : String → Option ℚ :=
  fun n =>
    if n = "UREA" then some P_urea_spot
    else if n = "METANOL" then some P_met_spot
    else if n = "MADERA" then some P_mad_spot
    else none

/-- The default target dict extended with an extra, unused key. -/
def targetsBE_extra : String → Option ℚ :=
  fun n => if n = "EXTRA" then some 1 else targetsBE n

/-- The `delta_costo` array of one loop iteration (app.py lines 107-108):
the relative-price ratio minus one, scaled by the volume exposure. -/
def delta_list (c : Commodity) (t : ℚ) : List ℚ :=
  ((linspace c.P0 t horiz_meses).map (fun p => p / c.P0)).map (fun r => c.VS * (r - 1))

/-- Closed form of entry `i` of `delta_list c t`. -/
def delta_costo_at (c : Commodity) (t : ℚ) (i : ℕ) : ℚ :=
  c.VS * ((c.P0 + (t - c.P0) * (i : ℚ) / (horiz_meses : ℚ)) / c.P0 - 1)

/-- The `precios` table of a successful call, unfolded over the three
commodities with targets `u`, `m`, `w`. -/
def precios_lista (u m w : ℚ) : List (String × List ℚ) :=
  [("UREA", linspace urea.P0 u horiz_meses),
   ("METANOL", linspace metanol.P0 m horiz_meses),
   ("MADERA", linspace madera.P0 w horiz_meses)]

/-- The `ebit_sin` series of a successful call, unfolded over the three
loop iterations (app.py line 110 applied for UREA, METANOL, MADERA). -/
def series_sin (u m w : ℚ) : List ℚ :=
  List.zipWith (fun e d => e - d)
    (List.zipWith (fun e d => e - d)
      (List.zipWith (fun e d => e - d)
        (List.replicate (horiz_meses + 1) EBIT_base)
        (delta_list urea u))
      (delta_list metanol m))
    (delta_list madera w)

/-- The `ebit_con` series of a successful call, unfolded over the three
loop iterations (app.py line 111). -/
def series_con (u m w : ℚ) : List ℚ :=
  List.zipWith (fun e d => e - (1 - madera.R2) * d)
    (List.zipWith (fun e d => e - (1 - metanol.R2) * d)
      (List.zipWith (fun e d => e - (1 - urea.R2) * d)
        (List.replicate (horiz_meses + 1) EBIT_base)
        (delta_list urea u))
      (delta_list metanol m))
    (delta_list madera w)

/-- The `ahorro` series of a successful call, unfolded over the three
loop iterations (app.py line 112). -/
def series_ahorro (u m w : ℚ) : List ℚ :=
  List.zipWith (fun a d => a + madera.R2 * d)
    (List.zipWith (fun a d => a + metanol.R2 * d)
      (List.zipWith (fun a d => a + urea.R2 * d)
        (List.replicate (horiz_meses + 1) (0 : ℚ))
        (delta_list urea u))
      (delta_list metanol m))
    (delta_list madera w)

section Lemmas

lemma construye_eq (tp : String → Option ℚ) (u m w : ℚ)
    (hU : tp "UREA" = some u) (hM : tp "METANOL" = some m) (hW : tp "MADERA" = some w) :
    construye_escenario_targets tp = .ok (resultado tp) := by
  simp [construye_escenario_targets, base_commodities, stepCommodity, hU, hM, hW,
    initEscenario, List.foldlM, resultado, Bind.bind, Except.bind, Except.toOption,
    pure, Except.pure]

lemma elt_zipWith (f : ℚ → ℚ → ℚ) (xs ys : List ℚ) (i : ℕ)
    (hx : i < xs.length) (hy : i < ys.length) :
    elt (List.zipWith f xs ys) i = f (elt xs i) (elt ys i) := by
  have hz : i < (List.zipWith f xs ys).length := by
    simp [List.length_zipWith]; omega
  simp only [elt, List.getD_eq_getElem?_getD, List.getElem?_eq_getElem hx,
    List.getElem?_eq_getElem hy, List.getElem?_eq_getElem hz,
    Option.getD_some, List.getElem_zipWith]

lemma elt_map (f : ℚ → ℚ) (xs : List ℚ) (i : ℕ) (hx : i < xs.length) :
    elt (xs.map f) i = f (elt xs i) := by
  simp only [elt, List.getD_eq_getElem?_getD, List.getElem?_map,
    List.getElem?_eq_getElem hx, Option.map_some', Option.getD_some]

lemma elt_replicate (n : ℕ) (c : ℚ) (i : ℕ) (hi : i < n) :
    elt (List.replicate n c) i = c := by
  simp [elt, List.getD_eq_getElem?_getD, List.getElem?_replicate, hi]

lemma length_linspace (a b : ℚ) (n : ℕ) : (linspace a b n).length = n + 1 := by
  simp [linspace]

lemma elt_linspace (a b : ℚ) (n i : ℕ) (hi : i ≤ n) :
    elt (linspace a b n) i = a + (b - a) * i / n := by
  have h : i < n + 1 := by omega
  simp [linspace, elt, List.getD_eq_getElem?_getD, List.getElem?_map,
    List.getElem?_range h]

lemma construye_ok (tp : String → Option ℚ) (u m w : ℚ)
    (hU : tp "UREA" = some u) (hM : tp "METANOL" = some m) (hW : tp "MADERA" = some w) :
    construye_escenario_targets tp =
      .ok ⟨precios_lista u m w, series_sin u m w, series_con u m w, series_ahorro u m w⟩ := by
  simp [construye_escenario_targets, base_commodities, stepCommodity, hU, hM, hW,
    initEscenario, List.foldlM, Bind.bind, Except.bind, pure, Except.pure, delta_list,
    urea, metanol, madera, precios_lista, series_sin, series_con, series_ahorro]

lemma precios_eq (tp : String → Option ℚ) (u m w : ℚ)
    (hU : tp "UREA" = some u) (hM : tp "METANOL" = some m) (hW : tp "MADERA" = some w)
    (st : Escenario) (hok : construye_escenario_targets tp = .ok st) :
    st.precios = precios_lista u m w := by
  have h := construye_ok tp u m w hU hM hW
  rw [hok] at h
  rw [Except.ok.inj h]

lemma sin_eq (tp : String → Option ℚ) (u m w : ℚ)
    (hU : tp "UREA" = some u) (hM : tp "METANOL" = some m) (hW : tp "MADERA" = some w)
    (st : Escenario) (hok : construye_escenario_targets tp = .ok st) :
    st.ebit_sin = series_sin u m w := by
  have h := construye_ok tp u m w hU hM hW
  rw [hok] at h
  rw [Except.ok.inj h]

lemma con_eq (tp : String → Option ℚ) (u m w : ℚ)
    (hU : tp "UREA" = some u) (hM : tp "METANOL" = some m) (hW : tp "MADERA" = some w)
    (st : Escenario) (hok : construye_escenario_targets tp = .ok st) :
    st.ebit_con = series_con u m w := by
  have h := construye_ok tp u m w hU hM hW
  rw [hok] at h
  rw [Except.ok.inj h]

lemma ahorro_eq (tp : String → Option ℚ) (u m w : ℚ)
    (hU : tp "UREA" = some u) (hM : tp "METANOL" = some m) (hW : tp "MADERA" = some w)
    (st : Escenario) (hok : construye_escenario_targets tp = .ok st) :
    st.ahorro = series_ahorro u m w := by
  have h := construye_ok tp u m w hU hM hW
  rw [hok] at h
  rw [Except.ok.inj h]

lemma length_delta_list (c : Commodity) (t : ℚ) :
    (delta_list c t).length = horiz_meses + 1 := by
  simp [delta_list, linspace]

lemma elt_delta_list (c : Commodity) (t : ℚ) (i : ℕ) (hi : i ≤ horiz_meses) :
    elt (delta_list c t) i = delta_costo_at c t i := by
  have h1 : i < (linspace c.P0 t horiz_meses).length := by
    simp [linspace]; omega
  have h2 : i < ((linspace c.P0 t horiz_meses).map (fun p => p / c.P0)).length := by
    simpa using h1
  rw [delta_list, elt_map _ _ _ h2, elt_map _ _ _ h1,
    elt_linspace _ _ _ _ hi, delta_costo_at]

lemma elt_accum (f1 f2 f3 : ℚ → ℚ → ℚ) (init d1 d2 d3 : List ℚ) (i : ℕ)
    (h0 : i < init.length) (h1 : i < d1.length) (h2 : i < d2.length) (h3 : i < d3.length) :
    elt (List.zipWith f3 (List.zipWith f2 (List.zipWith f1 init d1) d2) d3) i =
      f3 (f2 (f1 (elt init i) (elt d1 i)) (elt d2 i)) (elt d3 i) := by
  have ha : i < (List.zipWith f1 init d1).length := by
    simp [List.length_zipWith]; omega
  have hb : i < (List.zipWith f2 (List.zipWith f1 init d1) d2).length := by
    simp [List.length_zipWith]; omega
  rw [elt_zipWith _ _ _ _ hb h3, elt_zipWith _ _ _ _ ha h2, elt_zipWith _ _ _ _ h0 h1]

lemma elt_series_sin (u m w : ℚ) (i : ℕ) (hi : i ≤ horiz_meses) :
    elt (series_sin u m w) i =
      EBIT_base - delta_costo_at urea u i - delta_costo_at metanol m i
        - delta_costo_at madera w i := by
  have hr : i < (List.replicate (horiz_meses + 1) EBIT_base).length := by simp; omega
  have hd : ∀ (c : Commodity) (t : ℚ), i < (delta_list c t).length := fun c t => by
    rw [length_delta_list]; omega
  rw [series_sin, elt_accum _ _ _ _ _ _ _ _ hr (hd _ u) (hd _ m) (hd _ w),
    elt_replicate _ _ _ (by omega), elt_delta_list _ _ _ hi,
    elt_delta_list _ _ _ hi, elt_delta_list _ _ _ hi]

lemma elt_series_con (u m w : ℚ) (i : ℕ) (hi : i ≤ horiz_meses) :
    elt (series_con u m w) i =
      EBIT_base - (1 - urea.R2) * delta_costo_at urea u i
        - (1 - metanol.R2) * delta_costo_at metanol m i
        - (1 - madera.R2) * delta_costo_at madera w i := by
  have hr : i < (List.replicate (horiz_meses + 1) EBIT_base).length := by simp; omega
  have hd : ∀ (c : Commodity) (t : ℚ), i < (delta_list c t).length := fun c t => by
    rw [length_delta_list]; omega
  rw [series_con, elt_accum _ _ _ _ _ _ _ _ hr (hd _ u) (hd _ m) (hd _ w),
    elt_replicate _ _ _ (by omega), elt_delta_list _ _ _ hi,
    elt_delta_list _ _ _ hi, elt_delta_list _ _ _ hi]

lemma elt_series_ahorro (u m w : ℚ) (i : ℕ) (hi : i ≤ horiz_meses) :
    elt (series_ahorro u m w) i =
      urea.R2 * delta_costo_at urea u i + metanol.R2 * delta_costo_at metanol m i
        + madera.R2 * delta_costo_at madera w i := by
  have hr : i < (List.replicate (horiz_meses + 1) (0 : ℚ)).length := by simp; omega
  have hd : ∀ (c : Commodity) (t : ℚ), i < (delta_list c t).length := fun c t => by
    rw [length_delta_list]; omega
  rw [series_ahorro, elt_accum _ _ _ _ _ _ _ _ hr (hd _ u) (hd _ m) (hd _ w),
    elt_replicate _ _ _ (by omega), elt_delta_list _ _ _ hi,
    elt_delta_list _ _ _ hi, elt_delta_list _ _ _ hi]
  ring

lemma delta_costo_at_zero (c : Commodity) (t : ℚ) (h : c.P0 ≠ 0) :
    delta_costo_at c t 0 = 0 := by
  simp [delta_costo_at, div_self h]

lemma delta_costo_at_self (c : Commodity) (i : ℕ) (h : c.P0 ≠ 0) :
    delta_costo_at c c.P0 i = 0 := by
  simp [delta_costo_at, div_self h]

lemma linspace_step (a b : ℚ) (n i : ℕ) (hi : i < n) :
    elt (linspace a b n) (i + 1) - elt (linspace a b n) i = (b - a) / n := by
  rw [elt_linspace _ _ _ _ (by omega), elt_linspace _ _ _ _ (by omega)]
  push_cast
  ring

lemma linspace_strict_mono (a b : ℚ) (n i j : ℕ) (hij : i < j) (hj : j ≤ n)
    (hab : a < b) :
    elt (linspace a b n) i < elt (linspace a b n) j := by
  rw [elt_linspace _ _ _ _ (by omega), elt_linspace _ _ _ _ hj]
  have hn : 0 < (n : ℚ) := by
    have : 0 < n := by omega
    exact_mod_cast this
  have hcast : (i : ℚ) < (j : ℚ) := by exact_mod_cast hij
  have h1 : (b - a) * (i : ℚ) < (b - a) * (j : ℚ) :=
    mul_lt_mul_of_pos_left hcast (sub_pos.mpr hab)
  have h2 := mul_lt_mul_of_pos_right h1 hn
  have h3 : (b - a) * i / n < (b - a) * j / n := by
    rw [div_lt_div_iff₀ hn hn]
    linarith
  linarith

lemma linspace_strict_anti (a b : ℚ) (n i j : ℕ) (hij : i < j) (hj : j ≤ n)
    (hab : b < a) :
    elt (linspace a b n) j < elt (linspace a b n) i := by
  rw [elt_linspace a b n j hj, elt_linspace a b n i (by omega)]
  have hn : 0 < (n : ℚ) := by
    have : 0 < n := by omega
    exact_mod_cast this
  have hcast : (i : ℚ) < (j : ℚ) := by exact_mod_cast hij
  have h1 : (b - a) * (j : ℚ) < (b - a) * (i : ℚ) :=
    mul_lt_mul_of_neg_left hcast (by linarith)
  have h2 := mul_lt_mul_of_pos_right h1 hn
  have h3 : (b - a) * j / n < (b - a) * i / n := by
    rw [div_lt_div_iff₀ hn hn]
    linarith
  linarith

lemma linspace_const (a : ℚ) (n i : ℕ) (hi : i ≤ n) :
    elt (linspace a a n) i = a := by
  rw [elt_linspace _ _ _ _ hi]
  ring

lemma pathOf_eq (tp : String → Option ℚ) (u m w : ℚ)
    (hU : tp "UREA" = some u) (hM : tp "METANOL" = some m) (hW : tp "MADERA" = some w)
    (st : Escenario) (hok : construye_escenario_targets tp = .ok st) :
    pathOf st "UREA" = linspace urea.P0 u horiz_meses ∧
    pathOf st "METANOL" = linspace metanol.P0 m horiz_meses ∧
    pathOf st "MADERA" = linspace madera.P0 w horiz_meses := by
  rw [pathOf, pathOf, pathOf, precios_eq tp u m w hU hM hW st hok]
  refine ⟨rfl, rfl, rfl⟩

end Lemmas

/-- Claim C1: for every target-price mapping containing all three
commodities, the series returned by `construye_escenario_targets`
satisfy, at every month index `i ≤ 12`,
`ebit_con[i] - ebit_sin[i] = ahorro[i]`, exactly in exact arithmetic. -/
theorem savings_identity (tp : String → Option ℚ) (u m w : ℚ)
    (hU : tp "UREA" = some u) (hM : tp "METANOL" = some m) (hW : tp "MADERA" = some w)
    (st : Escenario) (hok : construye_escenario_targets tp = .ok st)
    (i : ℕ) (hi : i ≤ horiz_meses) :
    elt st.ebit_con i - elt st.ebit_sin i = elt st.ahorro i := by
  rw [sin_eq tp u m w hU hM hW st hok, con_eq tp u m w hU hM hW st hok,
    ahorro_eq tp u m w hU hM hW st hok,
    elt_series_sin _ _ _ _ hi, elt_series_con _ _ _ _ hi, elt_series_ahorro _ _ _ _ hi]
  ring

/-- Witness for `savings_identity` at the app's default targets, i = 5. -/
theorem savings_identity_witness :
    targetsBE "UREA" = some P_urea_BE ∧ targetsBE "METANOL" = some P_met_BE ∧
    targetsBE "MADERA" = some P_mad_BE ∧
    construye_escenario_targets targetsBE = .ok (resultado targetsBE) ∧
    (5 : ℕ) ≤ horiz_meses ∧
    elt (resultado targetsBE).ebit_con 5 - elt (resultado targetsBE).ebit_sin 5
      = elt (resultado targetsBE).ahorro 5 :=
  ⟨rfl, rfl, rfl, construye_eq targetsBE P_urea_BE P_met_BE P_mad_BE rfl rfl rfl,
    by norm_num [horiz_meses],
    savings_identity targetsBE P_urea_BE P_met_BE P_mad_BE rfl rfl rfl
      (resultado targetsBE)
      (construye_eq targetsBE P_urea_BE P_met_BE P_mad_BE rfl rfl rfl)
      5 (by norm_num [horiz_meses])⟩

/-- Claim C2: for every commodity and target price, the returned price
path starts exactly at that commodity's P0, ends exactly at the target
price at index `horiz_meses`, and consecutive path values are evenly
spaced (all consecutive differences coincide). -/
theorem path_endpoints_even_spacing (tp : String → Option ℚ) (u m w : ℚ)
    (hU : tp "UREA" = some u) (hM : tp "METANOL" = some m) (hW : tp "MADERA" = some w)
    (st : Escenario) (hok : construye_escenario_targets tp = .ok st) :
    ∀ nc ∈ base_commodities, ∀ t, tp nc.1 = some t →
      elt (pathOf st nc.1) 0 = nc.2.P0 ∧
      elt (pathOf st nc.1) horiz_meses = t ∧
      ∀ i j : ℕ, i < horiz_meses → j < horiz_meses →
        elt (pathOf st nc.1) (i + 1) - elt (pathOf st nc.1) i =
          elt (pathOf st nc.1) (j + 1) - elt (pathOf st nc.1) j := by
  obtain ⟨hpU, hpM, hpW⟩ := pathOf_eq tp u m w hU hM hW st hok
  have hend : ∀ (a b : ℚ), elt (linspace a b horiz_meses) 0 = a ∧
      elt (linspace a b horiz_meses) horiz_meses = b := by
    intro a b
    constructor
    · rw [elt_linspace _ _ _ _ (Nat.zero_le _)]
      norm_num
    · rw [elt_linspace _ _ _ _ le_rfl]
      have : (horiz_meses : ℚ) ≠ 0 := by norm_num [horiz_meses]
      field_simp
  have hstep : ∀ (a b : ℚ) (i j : ℕ), i < horiz_meses → j < horiz_meses →
      elt (linspace a b horiz_meses) (i + 1) - elt (linspace a b horiz_meses) i =
        elt (linspace a b horiz_meses) (j + 1) - elt (linspace a b horiz_meses) j := by
    intro a b i j hi hj
    rw [linspace_step _ _ _ _ hi, linspace_step _ _ _ _ hj]
  intro nc hnc t ht
  simp only [base_commodities, List.mem_cons, List.not_mem_nil, or_false] at hnc
  rcases hnc with h | h | h <;> subst h
  · have htu : t = u := by rw [hU] at ht; exact (Option.some.inj ht).symm
    subst htu
    exact ⟨by rw [hpU]; exact (hend _ _).1, by rw [hpU]; exact (hend _ _).2,
      fun i j hi hj => by rw [hpU]; exact hstep _ _ i j hi hj⟩
  · have htm : t = m := by rw [hM] at ht; exact (Option.some.inj ht).symm
    subst htm
    exact ⟨by rw [hpM]; exact (hend _ _).1, by rw [hpM]; exact (hend _ _).2,
      fun i j hi hj => by rw [hpM]; exact hstep _ _ i j hi hj⟩
  · have htw : t = w := by rw [hW] at ht; exact (Option.some.inj ht).symm
    subst htw
    exact ⟨by rw [hpW]; exact (hend _ _).1, by rw [hpW]; exact (hend _ _).2,
      fun i j hi hj => by rw [hpW]; exact hstep _ _ i j hi hj⟩

/-- Witness for `path_endpoints_even_spacing` at the default targets,
UREA path, spacing compared at i = 0 and j = 5. -/
theorem path_endpoints_even_spacing_witness :
    targetsBE "UREA" = some P_urea_BE ∧ targetsBE "METANOL" = some P_met_BE ∧
    targetsBE "MADERA" = some P_mad_BE ∧
    construye_escenario_targets targetsBE = .ok (resultado targetsBE) ∧
    ("UREA", urea) ∈ base_commodities ∧
    elt (pathOf (resultado targetsBE) "UREA") 0 = urea.P0 ∧
    elt (pathOf (resultado targetsBE) "UREA") horiz_meses = P_urea_BE ∧
    elt (pathOf (resultado targetsBE) "UREA") (0 + 1) -
        elt (pathOf (resultado targetsBE) "UREA") 0 =
      elt (pathOf (resultado targetsBE) "UREA") (5 + 1) -
        elt (pathOf (resultado targetsBE) "UREA") 5 := by
  have hok : construye_escenario_targets targetsBE = .ok (resultado targetsBE) :=
    construye_eq targetsBE P_urea_BE P_met_BE P_mad_BE rfl rfl rfl
  have hmem : ("UREA", urea) ∈ base_commodities := by simp [base_commodities]
  have H := path_endpoints_even_spacing targetsBE P_urea_BE P_met_BE P_mad_BE rfl rfl rfl
    (resultado targetsBE) hok ("UREA", urea) hmem P_urea_BE rfl
  exact ⟨rfl, rfl, rfl, hok, hmem, H.1, H.2.1,
    H.2.2 0 5 (by norm_num [horiz_meses]) (by norm_num [horiz_meses])⟩

/-- Claim C3: at month 0 both EBIT series equal the baseline
`EBIT_base = 380266000` and the savings are 0, because every
commodity's relative price change at month 0 is exactly 0. -/
theorem month_zero_baseline (tp : String → Option ℚ) (u m w : ℚ)
    (hU : tp "UREA" = some u) (hM : tp "METANOL" = some m) (hW : tp "MADERA" = some w)
    (st : Escenario) (hok : construye_escenario_targets tp = .ok st) :
    EBIT_base = 380266000 ∧ elt st.ebit_sin 0 = EBIT_base ∧
    elt st.ebit_con 0 = EBIT_base ∧ elt st.ahorro 0 = 0 := by
  have h0 : (0 : ℕ) ≤ horiz_meses := Nat.zero_le _
  have hu : urea.P0 ≠ 0 := by norm_num [urea, P_urea_spot]
  have hm : metanol.P0 ≠ 0 := by norm_num [metanol, P_met_spot]
  have hw : madera.P0 ≠ 0 := by norm_num [madera, P_mad_spot]
  refine ⟨rfl, ?_, ?_, ?_⟩
  · rw [sin_eq tp u m w hU hM hW st hok, elt_series_sin _ _ _ _ h0,
      delta_costo_at_zero _ _ hu, delta_costo_at_zero _ _ hm, delta_costo_at_zero _ _ hw]
    ring
  · rw [con_eq tp u m w hU hM hW st hok, elt_series_con _ _ _ _ h0,
      delta_costo_at_zero _ _ hu, delta_costo_at_zero _ _ hm, delta_costo_at_zero _ _ hw]
    ring
  · rw [ahorro_eq tp u m w hU hM hW st hok, elt_series_ahorro _ _ _ _ h0,
      delta_costo_at_zero _ _ hu, delta_costo_at_zero _ _ hm, delta_costo_at_zero _ _ hw]
    ring

/-- Witness for `month_zero_baseline` at the app's default targets. -/
theorem month_zero_baseline_witness :
    targetsBE "UREA" = some P_urea_BE ∧ targetsBE "METANOL" = some P_met_BE ∧
    targetsBE "MADERA" = some P_mad_BE ∧
    construye_escenario_targets targetsBE = .ok (resultado targetsBE) ∧
    (EBIT_base = 380266000 ∧ elt (resultado targetsBE).ebit_sin 0 = EBIT_base ∧
      elt (resultado targetsBE).ebit_con 0 = EBIT_base ∧
      elt (resultado targetsBE).ahorro 0 = 0) :=
  ⟨rfl, rfl, rfl, construye_eq targetsBE P_urea_BE P_met_BE P_mad_BE rfl rfl rfl,
    month_zero_baseline targetsBE P_urea_BE P_met_BE P_mad_BE rfl rfl rfl
      (resultado targetsBE)
      (construye_eq targetsBE P_urea_BE P_met_BE P_mad_BE rfl rfl rfl)⟩

/-- Claim C4: a target mapping that omits one of the three commodity
names makes the call fail with an error identifying an absent
commodity name (the Python `KeyError(name)`), and no output series are
returned. -/
theorem missing_target_error (tp : String → Option ℚ)
    (h : tp "UREA" = none ∨ tp "METANOL" = none ∨ tp "MADERA" = none) :
    ∃ name, tp name = none ∧
      construye_escenario_targets tp = .error (.missingTarget name) := by
  rcases h with h | h | h
  · exact ⟨"UREA", h, by
      simp [construye_escenario_targets, base_commodities, List.foldlM,
        stepCommodity, h, Bind.bind, Except.bind]⟩
  · cases hU : tp "UREA" with
    | none => exact ⟨"UREA", hU, by
        simp [construye_escenario_targets, base_commodities, List.foldlM,
          stepCommodity, hU, Bind.bind, Except.bind]⟩
    | some u => exact ⟨"METANOL", h, by
        simp [construye_escenario_targets, base_commodities, List.foldlM,
          stepCommodity, hU, h, Bind.bind, Except.bind]⟩
  · cases hU : tp "UREA" with
    | none => exact ⟨"UREA", hU, by
        simp [construye_escenario_targets, base_commodities, List.foldlM,
          stepCommodity, hU, Bind.bind, Except.bind]⟩
    | some u =>
      cases hM : tp "METANOL" with
      | none => exact ⟨"METANOL", hM, by
          simp [construye_escenario_targets, base_commodities, List.foldlM,
            stepCommodity, hU, hM, Bind.bind, Except.bind]⟩
      | some m => exact ⟨"MADERA", h, by
          simp [construye_escenario_targets, base_commodities, List.foldlM,
            stepCommodity, hU, hM, h, Bind.bind, Except.bind]⟩

/-- Witness for `missing_target_error` on a dict missing METANOL. -/
theorem missing_target_error_witness :
    targets_sin_metanol "METANOL" = none ∧
    (∃ name, targets_sin_metanol name = none ∧
      construye_escenario_targets targets_sin_metanol = .error (.missingTarget name)) :=
  ⟨rfl, missing_target_error targets_sin_metanol (Or.inr (Or.inl rfl))⟩

/-- Claim C6: when every commodity's target price equals its spot
price, every per-commodity delta cost is 0 and, at every month index,
both EBIT series equal the baseline and the savings are 0. -/
theorem zero_movement_identity (tp : String → Option ℚ)
    (hU : tp "UREA" = some urea.P0) (hM : tp "METANOL" = some metanol.P0)
    (hW : tp "MADERA" = some madera.P0)
    (st : Escenario) (hok : construye_escenario_targets tp = .ok st)
    (i : ℕ) (hi : i ≤ horiz_meses) :
    delta_costo_at urea urea.P0 i = 0 ∧ delta_costo_at metanol metanol.P0 i = 0 ∧
    delta_costo_at madera madera.P0 i = 0 ∧
    elt st.ebit_sin i = EBIT_base ∧ elt st.ebit_con i = EBIT_base ∧
    elt st.ahorro i = 0 := by
  have hu : urea.P0 ≠ 0 := by norm_num [urea, P_urea_spot]
  have hm : metanol.P0 ≠ 0 := by norm_num [metanol, P_met_spot]
  have hw : madera.P0 ≠ 0 := by norm_num [madera, P_mad_spot]
  refine ⟨delta_costo_at_self _ _ hu, delta_costo_at_self _ _ hm,
    delta_costo_at_self _ _ hw, ?_, ?_, ?_⟩
  · rw [sin_eq tp _ _ _ hU hM hW st hok, elt_series_sin _ _ _ _ hi,
      delta_costo_at_self _ _ hu, delta_costo_at_self _ _ hm, delta_costo_at_self _ _ hw]
    ring
  · rw [con_eq tp _ _ _ hU hM hW st hok, elt_series_con _ _ _ _ hi,
      delta_costo_at_self _ _ hu, delta_costo_at_self _ _ hm, delta_costo_at_self _ _ hw]
    ring
  · rw [ahorro_eq tp _ _ _ hU hM hW st hok, elt_series_ahorro _ _ _ _ hi,
      delta_costo_at_self _ _ hu, delta_costo_at_self _ _ hm, delta_costo_at_self _ _ hw]
    ring

/-- Witness for `zero_movement_identity` at the all-spot targets, i = 7. -/
theorem zero_movement_identity_witness :
    targets_spot "UREA" = some urea.P0 ∧ targets_spot "METANOL" = some metanol.P0 ∧
    targets_spot "MADERA" = some madera.P0 ∧
    construye_escenario_targets targets_spot = .ok (resultado targets_spot) ∧
    (7 : ℕ) ≤ horiz_meses ∧
    (delta_costo_at urea urea.P0 7 = 0 ∧ delta_costo_at metanol metanol.P0 7 = 0 ∧
      delta_costo_at madera madera.P0 7 = 0 ∧
      elt (resultado targets_spot).ebit_sin 7 = EBIT_base ∧
      elt (resultado targets_spot).ebit_con 7 = EBIT_base ∧
      elt (resultado targets_spot).ahorro 7 = 0) :=
  ⟨rfl, rfl, rfl, construye_eq targets_spot P_urea_spot P_met_spot P_mad_spot rfl rfl rfl,
    by norm_num [horiz_meses],
    zero_movement_identity targets_spot rfl rfl rfl (resultado targets_spot)
      (construye_eq targets_spot P_urea_spot P_met_spot P_mad_spot rfl rfl rfl)
      7 (by norm_num [horiz_meses])⟩

/-- Claim C7: each returned price path is strictly increasing in the
index when the target exceeds P0, strictly decreasing when the target
is below P0, and constant when the target equals P0. -/
theorem path_monotonicity (tp : String → Option ℚ) (u m w : ℚ)
    (hU : tp "UREA" = some u) (hM : tp "METANOL" = some m) (hW : tp "MADERA" = some w)
    (st : Escenario) (hok : construye_escenario_targets tp = .ok st) :
    ∀ nc ∈ base_commodities, ∀ t, tp nc.1 = some t →
      ∀ i j : ℕ, i < j → j ≤ horiz_meses →
        (nc.2.P0 < t → elt (pathOf st nc.1) i < elt (pathOf st nc.1) j) ∧
        (t < nc.2.P0 → elt (pathOf st nc.1) j < elt (pathOf st nc.1) i) ∧
        (t = nc.2.P0 → elt (pathOf st nc.1) i = elt (pathOf st nc.1) j) := by
  obtain ⟨hpU, hpM, hpW⟩ := pathOf_eq tp u m w hU hM hW st hok
  have hgen : ∀ (a t : ℚ) (i j : ℕ), i < j → j ≤ horiz_meses →
      (a < t → elt (linspace a t horiz_meses) i < elt (linspace a t horiz_meses) j) ∧
      (t < a → elt (linspace a t horiz_meses) j < elt (linspace a t horiz_meses) i) ∧
      (t = a → elt (linspace a t horiz_meses) i = elt (linspace a t horiz_meses) j) := by
    intro a t i j hij hj
    refine ⟨fun h => linspace_strict_mono a t horiz_meses i j hij hj h,
      fun h => linspace_strict_anti a t horiz_meses i j hij hj h,
      fun h => ?_⟩
    subst h
    rw [linspace_const _ _ _ (by omega), linspace_const _ _ _ hj]
  intro nc hnc t ht
  simp only [base_commodities, List.mem_cons, List.not_mem_nil, or_false] at hnc
  rcases hnc with h | h | h <;> subst h
  · have htu : t = u := by rw [hU] at ht; exact (Option.some.inj ht).symm
    subst htu
    intro i j hij hj
    rw [hpU]
    exact hgen _ _ i j hij hj
  · have htm : t = m := by rw [hM] at ht; exact (Option.some.inj ht).symm
    subst htm
    intro i j hij hj
    rw [hpM]
    exact hgen _ _ i j hij hj
  · have htw : t = w := by rw [hW] at ht; exact (Option.some.inj ht).symm
    subst htw
    intro i j hij hj
    rw [hpW]
    exact hgen _ _ i j hij hj

/-- Witness for `path_monotonicity`: at the default targets the UREA
target 650 exceeds the spot 494.98, so the path strictly increases
from index 0 to index 12. -/
theorem path_monotonicity_witness :
    targetsBE "UREA" = some P_urea_BE ∧ targetsBE "METANOL" = some P_met_BE ∧
    targetsBE "MADERA" = some P_mad_BE ∧
    construye_escenario_targets targetsBE = .ok (resultado targetsBE) ∧
    ("UREA", urea) ∈ base_commodities ∧ (0 : ℕ) < 12 ∧ (12 : ℕ) ≤ horiz_meses ∧
    urea.P0 < P_urea_BE ∧
    elt (pathOf (resultado targetsBE) "UREA") 0 <
      elt (pathOf (resultado targetsBE) "UREA") 12 := by
  have hok : construye_escenario_targets targetsBE = .ok (resultado targetsBE) :=
    construye_eq targetsBE P_urea_BE P_met_BE P_mad_BE rfl rfl rfl
  have hmem : ("UREA", urea) ∈ base_commodities := by simp [base_commodities]
  have hlt : urea.P0 < P_urea_BE := by norm_num [urea, P_urea_spot, P_urea_BE]
  have H := path_monotonicity targetsBE P_urea_BE P_met_BE P_mad_BE rfl rfl rfl
    (resultado targetsBE) hok ("UREA", urea) hmem P_urea_BE rfl
    0 12 (by norm_num) (by norm_num [horiz_meses])
  exact ⟨rfl, rfl, rfl, hok, hmem, by norm_num, by norm_num [horiz_meses], hlt, H.1 hlt⟩

/-- Claim C8: all four outputs of a successful call have length
`horiz_meses + 1 = 13`: the three EBIT-related series, and each of the
three per-commodity price paths in the price table. -/
theorem series_lengths (tp : String → Option ℚ) (u m w : ℚ)
    (hU : tp "UREA" = some u) (hM : tp "METANOL" = some m) (hW : tp "MADERA" = some w)
    (st : Escenario) (hok : construye_escenario_targets tp = .ok st) :
    st.ebit_sin.length = horiz_meses + 1 ∧ st.ebit_con.length = horiz_meses + 1 ∧
    st.ahorro.length = horiz_meses + 1 ∧ st.precios.length = 3 ∧
    st.precios.map (fun p => (p.2).length) =
      [horiz_meses + 1, horiz_meses + 1, horiz_meses + 1] := by
  refine ⟨?_, ?_, ?_, ?_, ?_⟩
  · rw [sin_eq tp u m w hU hM hW st hok]
    simp [series_sin, List.length_zipWith, length_delta_list]
  · rw [con_eq tp u m w hU hM hW st hok]
    simp [series_con, List.length_zipWith, length_delta_list]
  · rw [ahorro_eq tp u m w hU hM hW st hok]
    simp [series_ahorro, List.length_zipWith, length_delta_list]
  · rw [precios_eq tp u m w hU hM hW st hok]
    simp [precios_lista]
  · rw [precios_eq tp u m w hU hM hW st hok]
    simp [precios_lista, length_linspace]

/-- Witness for `series_lengths` at the app's default targets. -/
theorem series_lengths_witness :
    targetsBE "UREA" = some P_urea_BE ∧ targetsBE "METANOL" = some P_met_BE ∧
    targetsBE "MADERA" = some P_mad_BE ∧
    construye_escenario_targets targetsBE = .ok (resultado targetsBE) ∧
    ((resultado targetsBE).ebit_sin.length = horiz_meses + 1 ∧
      (resultado targetsBE).ebit_con.length = horiz_meses + 1 ∧
      (resultado targetsBE).ahorro.length = horiz_meses + 1 ∧
      (resultado targetsBE).precios.length = 3 ∧
      (resultado targetsBE).precios.map (fun p => (p.2).length) =
        [horiz_meses + 1, horiz_meses + 1, horiz_meses + 1]) :=
  ⟨rfl, rfl, rfl, construye_eq targetsBE P_urea_BE P_met_BE P_mad_BE rfl rfl rfl,
    series_lengths targetsBE P_urea_BE P_met_BE P_mad_BE rfl rfl rfl
      (resultado targetsBE)
      (construye_eq targetsBE P_urea_BE P_met_BE P_mad_BE rfl rfl rfl)⟩

/-- Claim C9, counterexample: in the spec's concrete scenario (UREA
target 650.00, the other targets at spot), the month-12 values claimed
by the spec (ebit_sin ≈ 376706131, ahorro ≈ 2493811, ebit_con ≈
379199811, each to the nearest unit) are all off by more than 1/2, so
none of them is the value rounded to the nearest unit. -/
theorem concrete_scenario_values_not_as_claimed :
    construye_escenario_targets targets_urea_650 = .ok (resultado targets_urea_650) ∧
    (1/2 : ℚ) < |elt (resultado targets_urea_650).ebit_sin horiz_meses - 376706131| ∧
    (1/2 : ℚ) < |elt (resultado targets_urea_650).ahorro horiz_meses - 2493811| ∧
    (1/2 : ℚ) < |elt (resultado targets_urea_650).ebit_con horiz_meses - 379199811| := by
  have hok : construye_escenario_targets targets_urea_650 = .ok (resultado targets_urea_650) :=
    construye_eq targets_urea_650 650 P_met_spot P_mad_spot rfl rfl rfl
  have hsin : elt (resultado targets_urea_650).ebit_sin horiz_meses
      = 46615671155869/123745 := by
    rw [sin_eq targets_urea_650 650 P_met_spot P_mad_spot rfl rfl rfl _ hok,
      elt_series_sin _ _ _ _ le_rfl]
    norm_num [delta_costo_at, urea, metanol, madera, P_urea_spot, P_met_spot, P_mad_spot,
      VS_urea_anual, VS_metanol_anual, VS_madera_anual, EBIT_base, horiz_meses]
  have hah : elt (resultado targets_urea_650).ahorro horiz_meses
      = 3085497514015917/1237450000 := by
    rw [ahorro_eq targets_urea_650 650 P_met_spot P_mad_spot rfl rfl rfl _ hok,
      elt_series_ahorro _ _ _ _ le_rfl]
    norm_num [delta_costo_at, urea, metanol, madera, P_urea_spot, P_met_spot, P_mad_spot,
      VS_urea_anual, VS_metanol_anual, VS_madera_anual, R2_urea, R2_metanol, R2_madera,
      horiz_meses]
  have hcon : elt (resultado targets_urea_650).ebit_con horiz_meses
      = 469242209072705917/1237450000 := by
    rw [con_eq targets_urea_650 650 P_met_spot P_mad_spot rfl rfl rfl _ hok,
      elt_series_con _ _ _ _ le_rfl]
    norm_num [delta_costo_at, urea, metanol, madera, P_urea_spot, P_met_spot, P_mad_spot,
      VS_urea_anual, VS_metanol_anual, VS_madera_anual, R2_urea, R2_metanol, R2_madera,
      EBIT_base, horiz_meses]
  refine ⟨hok, ?_, ?_, ?_⟩
  · rw [hsin, abs_of_nonneg (by norm_num)]
    norm_num
  · rw [hah, abs_of_nonpos (by norm_num)]
    norm_num
  · rw [hcon, abs_of_nonneg (by norm_num)]
    norm_num

/-- Claim C9, amended: in the spec's concrete scenario the path runs
exactly from 494.98 to 650.00, the month-12 delta cost is exactly
440345014131/123745 ≈ 3558487, and to the nearest unit
ebit_sin[12] = 376707513, ahorro[12] = 2493432, ebit_con[12] =
379200945. -/
theorem concrete_scenario_exact_values :
    construye_escenario_targets targets_urea_650 = .ok (resultado targets_urea_650) ∧
    elt (pathOf (resultado targets_urea_650) "UREA") 0 = 494.98 ∧
    elt (pathOf (resultado targets_urea_650) "UREA") horiz_meses = 650 ∧
    EBIT_base - elt (resultado targets_urea_650).ebit_sin horiz_meses
      = 440345014131/123745 ∧
    |EBIT_base - elt (resultado targets_urea_650).ebit_sin horiz_meses - 3558487| ≤ 1/2 ∧
    |elt (resultado targets_urea_650).ebit_sin horiz_meses - 376707513| ≤ 1/2 ∧
    |elt (resultado targets_urea_650).ahorro horiz_meses - 2493432| ≤ 1/2 ∧
    |elt (resultado targets_urea_650).ebit_con horiz_meses - 379200945| ≤ 1/2 := by
  have hok : construye_escenario_targets targets_urea_650 = .ok (resultado targets_urea_650) :=
    construye_eq targets_urea_650 650 P_met_spot P_mad_spot rfl rfl rfl
  obtain ⟨hpU, -, -⟩ :=
    pathOf_eq targets_urea_650 650 P_met_spot P_mad_spot rfl rfl rfl _ hok
  have hsin : elt (resultado targets_urea_650).ebit_sin horiz_meses
      = 46615671155869/123745 := by
    rw [sin_eq targets_urea_650 650 P_met_spot P_mad_spot rfl rfl rfl _ hok,
      elt_series_sin _ _ _ _ le_rfl]
    norm_num [delta_costo_at, urea, metanol, madera, P_urea_spot, P_met_spot, P_mad_spot,
      VS_urea_anual, VS_metanol_anual, VS_madera_anual, EBIT_base, horiz_meses]
  have hah : elt (resultado targets_urea_650).ahorro horiz_meses
      = 3085497514015917/1237450000 := by
    rw [ahorro_eq targets_urea_650 650 P_met_spot P_mad_spot rfl rfl rfl _ hok,
      elt_series_ahorro _ _ _ _ le_rfl]
    norm_num [delta_costo_at, urea, metanol, madera, P_urea_spot, P_met_spot, P_mad_spot,
      VS_urea_anual, VS_metanol_anual, VS_madera_anual, R2_urea, R2_metanol, R2_madera,
      horiz_meses]
  have hcon : elt (resultado targets_urea_650).ebit_con horiz_meses
      = 469242209072705917/1237450000 := by
    rw [con_eq targets_urea_650 650 P_met_spot P_mad_spot rfl rfl rfl _ hok,
      elt_series_con _ _ _ _ le_rfl]
    norm_num [delta_costo_at, urea, metanol, madera, P_urea_spot, P_met_spot, P_mad_spot,
      VS_urea_anual, VS_metanol_anual, VS_madera_anual, R2_urea, R2_metanol, R2_madera,
      EBIT_base, horiz_meses]
  refine ⟨hok, ?_, ?_, ?_, ?_, ?_, ?_, ?_⟩
  · rw [hpU, elt_linspace _ _ _ _ (Nat.zero_le _)]
    norm_num [urea, P_urea_spot]
  · rw [hpU, elt_linspace _ _ _ _ le_rfl]
    have h12 : (horiz_meses : ℚ) ≠ 0 := by norm_num [horiz_meses]
    field_simp
  · rw [hsin]
    norm_num [EBIT_base]
  · rw [hsin, abs_of_nonneg (by norm_num [EBIT_base])]
    norm_num [EBIT_base]
  · rw [hsin, abs_of_nonpos (by norm_num)]
    norm_num
  · rw [hah, abs_of_nonneg (by norm_num)]
    norm_num
  · rw [hcon, abs_of_nonpos (by norm_num)]
    norm_num

/-- Claim C10: the outputs depend only on the values of the target
mapping at the three keys UREA, METANOL, MADERA; two mappings agreeing
there produce identical outputs, so extra keys are silently ignored. -/
theorem targets_extra_keys_ignored (tp1 tp2 : String → Option ℚ)
    (h1 : tp1 "UREA" = tp2 "UREA") (h2 : tp1 "METANOL" = tp2 "METANOL")
    (h3 : tp1 "MADERA" = tp2 "MADERA") :
    construye_escenario_targets tp1 = construye_escenario_targets tp2 := by
  simp only [construye_escenario_targets, base_commodities, List.foldlM,
    stepCommodity, h1, h2, h3]

/-- Witness for `targets_extra_keys_ignored`: the default targets with
and without an extra key give the same outputs. -/
theorem targets_extra_keys_ignored_witness :
    targetsBE "UREA" = targetsBE_extra "UREA" ∧
    targetsBE "METANOL" = targetsBE_extra "METANOL" ∧
    targetsBE "MADERA" = targetsBE_extra "MADERA" ∧
    construye_escenario_targets targetsBE = construye_escenario_targets targetsBE_extra :=
  ⟨rfl, rfl, rfl, targets_extra_keys_ignored targetsBE targetsBE_extra rfl rfl rfl⟩

end Arauco
